import Mathlib

/-
Shallow embedding of the subscription / entitlement reconciliation core of
the AR-Auth repository, together with proofs that settle the frozen claims
about it.

Conventions of the embedding:
- `datetime` values are integers (seconds since the epoch, UTC); a Python
  `timedelta(days=g)` is `g * secondsPerDay` seconds, and `.days` of a
  non-negative timedelta is floor division of its seconds by `secondsPerDay`.
- Python code that can raise an exception is embedded as `Except String`;
  code that cannot raise stays a plain function.
- Python truthiness of optional strings/ints matters in the source
  (`if not subscription_id`, `if current_period_end`); it is modelled by
  `truthyStr` / `truthyInt`, which send `None`, `""` and `0` to `none`.
- SQLAlchemy repositories are embedded as pure functions over an in-memory
  list of rows; the SQL three-valued logic of comparisons against NULL is
  modelled explicitly where a query filters on a nullable column.
-/

namespace ARAuth

/-- Internal subscription status (models/organization_subscription.py, SubscriptionStatus). -/
inductive SubscriptionStatus
  | pending
  | active
  | past_due
  | canceled
  | trialing
  | expired
deriving DecidableEq, Repr

/-- Billing mode of a tier (models/subscription.py, SubscriptionTierMode). -/
inductive SubscriptionTierMode
  | recurring
  | one_time
deriving DecidableEq, Repr

/-- Recurrence interval of a tier (models/subscription.py, SubscriptionInterval). -/
inductive SubscriptionInterval
  | day
  | month
  | year
deriving DecidableEq, Repr

/-- Audit row status (models/subscription.py, SubscriptionEventStatus). -/
inductive SubscriptionEventStatus
  | normal
  | critical
deriving DecidableEq, Repr

/-- Membership role inside an organization (models/organization.py, OrganizationRole). -/
inductive OrganizationRole
  | owner
  | admin
  | member
deriving DecidableEq, Repr

/-- Permission row: opaque id plus codename (models/permission.py). -/
structure Permission where
  id : String
  codename : String
deriving DecidableEq, Repr

/-- Role row with its permission set (models/role.py). -/
structure Role where
  id : String
  permissions : List Permission
deriving DecidableEq, Repr

/-- Billing catalog root (models/subscription.py, Subscription): only the
fields the reconciler reads (accounts, roles). -/
structure CatalogSubscription where
  accounts : Int
  roles : List Role
deriving DecidableEq, Repr

/-- Purchasable tier (models/subscription.py, SubscriptionTier).  The parent
`subscription` is optional because the handlers guard on
`if subscription_tier.subscription`. -/
structure SubscriptionTier where
  id : String
  stripe_price_id : String
  mode : SubscriptionTierMode
  quantity : Int
  interval : Option SubscriptionInterval
  interval_count : Option Int
  subscription : Option CatalogSubscription
deriving DecidableEq, Repr

/-- Live entitlement record (models/organization_subscription.py,
OrganizationSubscription).  `id` is the surrogate primary key (a UUID in the
source, an arbitrary string here). -/
structure OrganizationSubscription where
  id : String
  organization_id : String
  tier_id : String
  accounts : Int
  stripe_subscription_id : String
  expires_at : Option Int
  grace_period : Option Int
  quantity : Int
  interval : Option SubscriptionInterval
  interval_count : Option Int
  status : SubscriptionStatus
  roles : List Role
deriving DecidableEq, Repr

/-- Seconds in one day; `timedelta(days=g)` is `g * secondsPerDay`. -/
def secondsPerDay : Int := 86400

/-- Entitlement calculator, `OrganizationSubscription.is_active`:
`(status == ACTIVE or status == TRIALING) and (not expires_at or expires_at > now)`.
Total: no exception is possible. -/
def is_active (s : OrganizationSubscription) (now : Int) : Bool :=
  (decide (s.status = SubscriptionStatus.active)
      || decide (s.status = SubscriptionStatus.trialing))
    && (match s.expires_at with
        | none => true
        | some e => decide (e > now))

/-- Entitlement calculator, `OrganizationSubscription.grace_expires_at`:
`if not self.expires_at: return None; return self.expires_at + timedelta(days=self.grace_period)`.
When `grace_period` is NULL, `timedelta(days=None)` raises TypeError. -/
def grace_expires_at (s : OrganizationSubscription) : Except String (Option Int) :=
  match s.expires_at with
  | none => Except.ok none
  | some e =>
    match s.grace_period with
    | none => Except.error "TypeError: unsupported type for timedelta days component: NoneType"
    | some g => Except.ok (some (e + g * secondsPerDay))

/-- Entitlement calculator, `OrganizationSubscription.is_in_grace_period`:
`not self.is_active and self.expires_at < now and self.grace_expires_at > now`
with Python short-circuit evaluation.  When the record is not active and
`expires_at` is NULL, `None < now` raises TypeError; when `grace_expires_at`
raises (NULL grace_period), the exception propagates. -/
def is_in_grace_period (s : OrganizationSubscription) (now : Int) : Except String Bool :=
  if is_active s now then Except.ok false
  else
    match s.expires_at with
    | none => Except.error "TypeError: < not supported between instances of NoneType and datetime"
    | some e =>
      if e < now then
        match grace_expires_at s with
        | Except.error msg => Except.error msg
        | Except.ok none =>
            Except.error "TypeError: > not supported between instances of NoneType and datetime"
        | Except.ok (some ge) => Except.ok (decide (ge > now))
      else Except.ok false

/-- Entitlement calculator, `OrganizationSubscription.days_until_expiry`.
Total: NULL expiry returns the sentinel 0. -/
def days_until_expiry (s : OrganizationSubscription) (now : Int) : Int :=
  match s.expires_at with
  | none => 0
  | some e => if e < now then 0 else Int.ofNat ((e - now).toNat / 86400)

/-- Entitlement calculator, `OrganizationSubscription.days_until_grace_period_ends`:
reads `grace_expires_at` (whose TypeError propagates), returns 0 when it is
`None` or in the past, else the whole days to the boundary. -/
def days_until_grace_period_ends (s : OrganizationSubscription) (now : Int) :
    Except String Int :=
  match grace_expires_at s with
  | Except.error msg => Except.error msg
  | Except.ok none => Except.ok 0
  | Except.ok (some ge) =>
      Except.ok (if ge < now then 0 else Int.ofNat ((ge - now).toNat / 86400))

/-- Status mapping table (routers/billing.py, map_stripe_to_subscription_status):
a dict lookup with default PENDING. -/
def map_stripe_to_subscription_status (stripe_status : String) : SubscriptionStatus :=
  if stripe_status = "incomplete" then SubscriptionStatus.pending
  else if stripe_status = "incomplete_expired" then SubscriptionStatus.expired
  else if stripe_status = "trialing" then SubscriptionStatus.trialing
  else if stripe_status = "active" then SubscriptionStatus.active
  else if stripe_status = "past_due" then SubscriptionStatus.past_due
  else if stripe_status = "canceled" then SubscriptionStatus.canceled
  else if stripe_status = "unpaid" then SubscriptionStatus.past_due
  else SubscriptionStatus.pending

/-- The seven provider statuses present in the mapping dict. -/
def knownStripeStatuses : List String :=
  ["incomplete", "incomplete_expired", "trialing", "active", "past_due",
   "canceled", "unpaid"]

/-- Wrapper for handlers: `subscription.get("status")` can be `None`, and
`dict.get(None, PENDING)` on the mapping dict returns the PENDING default. -/
def map_stripe_status_opt : Option String → SubscriptionStatus
  | none => SubscriptionStatus.pending
  | some s => map_stripe_to_subscription_status s

/-- Python truthiness of an optional string: `None` and `""` are falsy. -/
def truthyStr : Option String → Option String
  | none => none
  | some s => if s = "" then none else some s

/-- Python truthiness of an optional integer timestamp: `None` and `0` are falsy. -/
def truthyInt : Option Int → Option Int
  | none => none
  | some t => if t = 0 then none else some t

/-- Python f-string rendering of an optional value (`None` prints as "None"). -/
def pyStr : Option String → String
  | none => "None"
  | some s => s

/-- Organization row reduced to what the reconciler reads: its id and the
owning user's `stripe_customer_id` (repositories/organization.py,
`get_by_user_customer_id` joins through the user). -/
structure Organization where
  id : String
  customer_id : Option String
deriving DecidableEq, Repr

/-- The organization-subscription table, as an in-memory list of rows. -/
abbrev Store := List OrganizationSubscription

/-- Read-side environment of the reconciler: the tier catalog, the
organizations, and the payment provider's line-item lookup for a checkout
session id (services/payment.py, `get_line_items`), reduced to the price id
of each line item (`None` when the nested price/id keys are missing). -/
structure Env where
  tiers : List SubscriptionTier
  organizations : List Organization
  line_items : Option String → List (Option String)

/-- SubscriptionTierRepository.get_by_stripe_price_id. -/
def get_by_stripe_price_id (env : Env) (price_id : String) : Option SubscriptionTier :=
  env.tiers.find? (fun t => decide (t.stripe_price_id = price_id))

/-- OrganizationRepository.get_by_id. -/
def get_org_by_id (env : Env) (oid : String) : Option Organization :=
  env.organizations.find? (fun o => decide (o.id = oid))

/-- OrganizationRepository.get_by_user_customer_id (`scalar_one_or_none`;
modelled as the first matching row). -/
def get_by_user_customer_id (env : Env) (customer_id : String) : Option Organization :=
  env.organizations.find? (fun o => decide (o.customer_id = some customer_id))

/-- OrganizationSubscriptionRepository.get_by_stripe_subscription_id
(`get_one_or_none`; modelled as the first matching row). -/
def get_by_stripe_subscription_id (store : Store) (sid : String) :
    Option OrganizationSubscription :=
  store.find? (fun s => decide (s.stripe_subscription_id = sid))

/-- OrganizationSubscriptionRepository.get_by_organization_and_tier: a plain
filter; the handlers only test the result for truthiness (non-emptiness). -/
def get_by_organization_and_tier (store : Store) (oid tid : String) :
    List OrganizationSubscription :=
  store.filter (fun s => decide (s.organization_id = oid) && decide (s.tier_id = tid))

/-- SQL three-valued logic of the filter
`expires_at + timedelta(days=grace_period) > now`: when either operand is
NULL the comparison is NULL, which is not true, so the row is excluded. -/
def sql_grace_window_gt (e g : Option Int) (now : Int) : Bool :=
  match e, g with
  | some e, some g => decide (e + g * secondsPerDay > now)
  | _, _ => false

/-- OrganizationSubscriptionRepository.get_active_by_organization: rows of the
organization with status ACTIVE whose `expires_at + grace_period > now`
(SQL NULL semantics: a NULL expiry or grace period excludes the row). -/
def get_active_by_organization (store : Store) (oid : String) (now : Int) :
    List OrganizationSubscription :=
  store.filter (fun s =>
    decide (s.organization_id = oid)
      && decide (s.status = SubscriptionStatus.active)
      && sql_grace_window_gt s.expires_at s.grace_period now)

/-- BaseRepository.update: full-row replace of the row with the same primary key. -/
def update_store (store : Store) (r : OrganizationSubscription) : Store :=
  store.map (fun s => if s.id = r.id then r else s)

/-- BaseRepository.create: insert of a new row. -/
def create_store (store : Store) (r : OrganizationSubscription) : Store :=
  store ++ [r]

/-- One entry of `subscription["items"]["data"]`; the price id is `None` when
the nested `price`/`id` keys are missing. -/
structure SubItem where
  price_id : Option String
deriving DecidableEq, Repr

/-- Payload of the `customer.subscription.*` events, reduced to the keys the
handlers read.  `items_data` is `subscription.get("items", \x7b\x7d).get("data", [])`. -/
structure SubscriptionPayload where
  id : Option String
  customer : Option String
  status : Option String
  items_data : List SubItem
  current_period_end : Option Int
  quantity : Option Int
  cancel_at_period_end : Option Bool
deriving Repr

/-- One entry of `invoice["lines"]["data"]`; `period_end` is
`entry.get("period", \x7b\x7d).get("end")`. -/
structure InvoiceLine where
  period_end : Option Int
deriving DecidableEq, Repr

/-- Payload of the `invoice.*` events.  `lines_data = none` models a missing
`lines` (or `data`) key, for which the source's default `[\x7b\x7d]` yields a first
entry with no period; `some []` models an explicitly empty list, on which the
source's `[0]` raises IndexError. -/
structure InvoicePayload where
  subscription : Option String
  lines_data : Option (List InvoiceLine)
deriving Repr

/-- Payload of `checkout.session.completed`, reduced to the keys the handler reads. -/
structure CheckoutSession where
  id : Option String
  subscription : Option String
  payment_status : Option String
  client_reference_id : Option String
deriving Repr

/-- The `invoice.get("lines", \x7b\x7d).get("data", [\x7b\x7d])[0].get("period", \x7b\x7d).get("end")`
chain of handle_invoice_paid. -/
def invoice_period_end (inv : InvoicePayload) : Except String (Option Int) :=
  match inv.lines_data with
  | none => Except.ok none
  | some [] => Except.error "IndexError: list index out of range"
  | some (l :: _) => Except.ok l.period_end

/-- Body of the try block of handle_invoice_paid (routers/billing.py):
resolve the record by the invoice's subscription reference, set status ACTIVE
and, when a (truthy) line-item period end is present, update the expiry. -/
def handle_invoice_paid_core (inv : InvoicePayload) (store : Store) :
    Except String Store :=
  match truthyStr inv.subscription with
  | none => Except.error "No subscription ID in invoice paid event"
  | some sid =>
    match get_by_stripe_subscription_id store sid with
    | none =>
        Except.error ("No organization subscription found for Stripe subscription ID: " ++ sid)
    | some os =>
      match invoice_period_end inv with
      | Except.error msg => Except.error msg
      | Except.ok pe =>
        let os := { os with status := SubscriptionStatus.active }
        let os :=
          match truthyInt pe with
          | some t => { os with expires_at := some t }
          | none => os
        Except.ok (update_store store os)

/-- handle_invoice_paid with its handler-level catch-all: any exception is
printed and swallowed, leaving the store unchanged. -/
def handle_invoice_paid (inv : InvoicePayload) (store : Store) : Store :=
  match handle_invoice_paid_core inv store with
  | Except.ok store' => store'
  | Except.error _ => store

/-- Body of the try block of handle_invoice_payment_failed: resolve the
record and set status PAST_DUE, keeping the expiry. -/
def handle_invoice_payment_failed_core (inv : InvoicePayload) (store : Store) :
    Except String Store :=
  match truthyStr inv.subscription with
  | none => Except.error "No subscription ID in invoice payment failed event"
  | some sid =>
    match get_by_stripe_subscription_id store sid with
    | none =>
        Except.error ("No organization subscription found for Stripe subscription ID: " ++ sid)
    | some os =>
        Except.ok (update_store store { os with status := SubscriptionStatus.past_due })

/-- handle_invoice_payment_failed with its handler-level catch-all. -/
def handle_invoice_payment_failed (inv : InvoicePayload) (store : Store) : Store :=
  match handle_invoice_payment_failed_core inv store with
  | Except.ok store' => store'
  | Except.error _ => store

/-- Body of the try block of handle_checkout_session_completed: reject unpaid
sessions, defer subscription checkouts to the subscription.created event, and
for a ONE_TIME tier create the one-time entitlement record (status ACTIVE, no
expiry, no grace period, synthetic subscription reference, roles copied from
the tier's parent subscription). -/
def handle_checkout_session_completed_core (env : Env) (session : CheckoutSession)
    (store : Store) : Except String Store :=
  if session.payment_status ≠ some "paid" then
    Except.error ("Checkout session not paid: " ++ pyStr session.id)
  else
    match truthyStr session.subscription with
    | some _ => Except.ok store
    | none =>
      match env.line_items session.id with
      | [] => Except.error ("No line items found for session " ++ pyStr session.id)
      | item :: _ =>
        match truthyStr item with
        | none => Except.error ("No price ID found in checkout session " ++ pyStr session.id)
        | some price_id =>
          match get_by_stripe_price_id env price_id with
          | none =>
              Except.error ("No subscription tier found for Stripe price ID: " ++ price_id)
          | some tier =>
            match truthyStr session.client_reference_id with
            | none =>
                Except.error ("No organization ID found in checkout session " ++ pyStr session.id)
            | some organization_id =>
              match get_org_by_id env organization_id with
              | none => Except.error ("No organization found with ID: " ++ organization_id)
              | some organization =>
                if tier.mode = SubscriptionTierMode.one_time then
                  let one_time_subscription_id := "one_time_" ++ pyStr session.id
                  let record : OrganizationSubscription :=
                    { id := one_time_subscription_id
                      organization_id := organization.id
                      tier_id := tier.id
                      accounts :=
                        match tier.subscription with
                        | some sub => sub.accounts
                        | none => 1
                      status := SubscriptionStatus.active
                      quantity := tier.quantity
                      interval := none
                      interval_count := none
                      stripe_subscription_id := one_time_subscription_id
                      expires_at := none
                      grace_period := none
                      roles :=
                        match tier.subscription with
                        | some sub => if sub.roles ≠ [] then sub.roles else []
                        | none => [] }
                  Except.ok (create_store store record)
                else
                  Except.ok store

/-- handle_checkout_session_completed with its handler-level catch-all. -/
def handle_checkout_session_completed (env : Env) (session : CheckoutSession)
    (store : Store) : Store :=
  match handle_checkout_session_completed_core env session store with
  | Except.ok store' => store'
  | Except.error _ => store

/-- Body of the try block of handle_subscription_updated: resolve tier by the
payload price, then the record by the subscription reference; set the mapped
status, the expiry when a (truthy) current period end is present, and the
quantity (tier quantity when it exceeds 1, else the provider-reported
quantity, default 1); when the resolved tier differs from the stored one,
also update the tier reference, interval fields, accounts and roles from the
new tier's parent subscription. -/
def handle_subscription_updated_core (env : Env) (sub : SubscriptionPayload)
    (store : Store) : Except String Store :=
  match truthyStr sub.id with
  | none => Except.error "No subscription ID in subscription updated event"
  | some subscription_id =>
    match sub.items_data with
    | [] => Except.error ("No items in subscription " ++ subscription_id)
    | item :: _ =>
      match truthyStr item.price_id with
      | none => Except.error ("No price ID in subscription " ++ subscription_id)
      | some price_id =>
        match get_by_stripe_price_id env price_id with
        | none =>
            Except.error ("No subscription tier found for Stripe price ID: " ++ price_id)
        | some tier =>
          let mapped_status := map_stripe_status_opt sub.status
          let expires_at := truthyInt sub.current_period_end
          match get_by_stripe_subscription_id store subscription_id with
          | none =>
              Except.error
                ("No organization subscription found for Stripe subscription ID: "
                  ++ subscription_id)
          | some os =>
            let os' := { os with status := mapped_status }
            let os' :=
              match expires_at with
              | some t => { os' with expires_at := some t }
              | none => os'
            let quantity :=
              if tier.quantity > 1 then tier.quantity else sub.quantity.getD 1
            let os' := { os' with quantity := quantity }
            let os' :=
              if tier.id ≠ os.tier_id then
                let os'' :=
                  { os' with
                      tier_id := tier.id
                      interval := tier.interval
                      interval_count := tier.interval_count }
                match tier.subscription with
                | some parent =>
                  let os''' := { os'' with accounts := parent.accounts }
                  if parent.roles ≠ [] then { os''' with roles := parent.roles }
                  else os'''
                | none => os''
              else os'
            Except.ok (update_store store os')

/-- handle_subscription_updated with its handler-level catch-all. -/
def handle_subscription_updated (env : Env) (sub : SubscriptionPayload)
    (store : Store) : Store :=
  match handle_subscription_updated_core env sub store with
  | Except.ok store' => store'
  | Except.error _ => store

/-- Body of the try block of handle_subscription_created: resolve tier by
price and organization by the customer reference; when a record for the
(organization, tier) pair already exists and the tier is RECURRING, delegate
to handle_subscription_updated (whose own catch-all swallows its failures);
else create the new record with the mapped status, expiry from the (truthy)
current period end, quantity (tier quantity when it exceeds 1, else the
provider-reported quantity, default 1), grace_period 7 and roles copied from
the tier's parent subscription. -/
def handle_subscription_created_core (env : Env) (sub : SubscriptionPayload)
    (store : Store) : Except String Store :=
  match truthyStr sub.customer with
  | none => Except.error "No customer ID in subscription created event"
  | some customer_id =>
    match truthyStr sub.id with
    | none => Except.error "No subscription ID in subscription created event"
    | some subscription_id =>
      match sub.items_data with
      | [] => Except.error ("No items in subscription " ++ subscription_id)
      | item :: _ =>
        match truthyStr item.price_id with
        | none => Except.error ("No price ID in subscription " ++ subscription_id)
        | some price_id =>
          match get_by_stripe_price_id env price_id with
          | none =>
              Except.error ("No subscription tier found for Stripe price ID: " ++ price_id)
          | some tier =>
            let mapped_status := map_stripe_status_opt sub.status
            let expires_at := truthyInt sub.current_period_end
            match get_by_user_customer_id env customer_id with
            | none =>
                Except.error ("No organization found for customer ID: " ++ customer_id)
            | some organization =>
              let existing := get_by_organization_and_tier store organization.id tier.id
              if existing ≠ [] ∧ tier.mode = SubscriptionTierMode.recurring then
                Except.ok (handle_subscription_updated env sub store)
              else
                let quantity :=
                  if tier.quantity > 1 then tier.quantity else sub.quantity.getD 1
                let record : OrganizationSubscription :=
                  { id := subscription_id
                    organization_id := organization.id
                    tier_id := tier.id
                    stripe_subscription_id := subscription_id
                    accounts :=
                      match tier.subscription with
                      | some parent => parent.accounts
                      | none => 1
                    status := mapped_status
                    quantity := quantity
                    interval := tier.interval
                    interval_count := tier.interval_count
                    expires_at := expires_at
                    grace_period := some 7
                    roles :=
                      match tier.subscription with
                      | some parent => if parent.roles ≠ [] then parent.roles else []
                      | none => [] }
                Except.ok (create_store store record)

/-- handle_subscription_created with its handler-level catch-all. -/
def handle_subscription_created (env : Env) (sub : SubscriptionPayload)
    (store : Store) : Store :=
  match handle_subscription_created_core env sub store with
  | Except.ok store' => store'
  | Except.error _ => store

/-- Body of the try block of handle_subscription_deleted: resolve the record
by the subscription reference; with `cancel_at_period_end` truthy, set status
ACTIVE and keep the expiry; otherwise set status CANCELED and expiry = now. -/
def handle_subscription_deleted_core (sub : SubscriptionPayload) (now : Int)
    (store : Store) : Except String Store :=
  match truthyStr sub.id with
  | none => Except.error "No subscription ID in subscription deleted event"
  | some subscription_id =>
    match get_by_stripe_subscription_id store subscription_id with
    | none =>
        Except.error
          ("No organization subscription found for Stripe subscription ID: "
            ++ subscription_id)
    | some os =>
      let os' :=
        if sub.cancel_at_period_end.getD false then
          { os with status := SubscriptionStatus.active }
        else
          { os with status := SubscriptionStatus.canceled, expires_at := some now }
      Except.ok (update_store store os')

/-- handle_subscription_deleted with its handler-level catch-all. -/
def handle_subscription_deleted (sub : SubscriptionPayload) (now : Int)
    (store : Store) : Store :=
  match handle_subscription_deleted_core sub now store with
  | Except.ok store' => store'
  | Except.error _ => store

/-- Event payload as dispatched by the webhook; payloads are duck-typed dicts
in the source, shaped per event type by the provider. -/
inductive EventData
  | checkout (s : CheckoutSession)
  | sub (s : SubscriptionPayload)
  | invoice (i : InvoicePayload)

/-- A signature-verified webhook event as the reconciler receives it. -/
structure StripeEvent where
  id : String
  type : String
  data : EventData

/-- SubscriptionEvent audit row (models/subscription.py). -/
structure SubscriptionEventRow where
  event_id : String
  type : String
  error : Option String
  status : SubscriptionEventStatus
deriving DecidableEq, Repr

/-- The six event types the webhook's else-branch audits (routers/billing.py,
payment_webhook). -/
def recognized_event_types : List String :=
  ["checkout.session.completed", "customer.subscription.created",
   "customer.subscription.updated", "customer.subscription.deleted",
   "invoice.paid", "invoice.payment_failed"]

/-- The if/elif dispatch inside payment_webhook's try block.  Every branch
calls a handler whose body is wrapped in its own catch-all `except`, so the
dispatch never raises; a payload whose shape does not match its event type
would only make the handler fail internally, leaving the store unchanged. -/
def dispatch_event (env : Env) (now : Int) (ev : StripeEvent) (store : Store) : Store :=
  if ev.type = "checkout.session.completed" then
    match ev.data with
    | EventData.checkout s => handle_checkout_session_completed env s store
    | _ => store
  else if ev.type = "customer.subscription.created" then
    match ev.data with
    | EventData.sub s => handle_subscription_created env s store
    | _ => store
  else if ev.type = "customer.subscription.updated" then
    match ev.data with
    | EventData.sub s => handle_subscription_updated env s store
    | _ => store
  else if ev.type = "customer.subscription.deleted" then
    match ev.data with
    | EventData.sub s => handle_subscription_deleted s now store
    | _ => store
  else if ev.type = "invoice.paid" then
    match ev.data with
    | EventData.invoice i => handle_invoice_paid i store
    | _ => store
  else if ev.type = "invoice.payment_failed" then
    match ev.data with
    | EventData.invoice i => handle_invoice_payment_failed i store
    | _ => store
  else store

/-- payment_webhook after signature verification: run the dispatch, then the
audit write.  The source wraps the dispatch in try/except, writing a CRITICAL
row with the error text if the dispatch raises and, in the else-branch, a
NORMAL row for recognized event types; since every handler swallows its own
exceptions, the dispatch is total and the CRITICAL branch is unreachable, so
the function returns the updated store together with the audit rows written
(one NORMAL row for recognized types, none otherwise). -/
def payment_webhook (env : Env) (now : Int) (ev : StripeEvent) (store : Store) :
    Store × List SubscriptionEventRow :=
  let store' := dispatch_event env now ev store
  if ev.type ∈ recognized_event_types then
    (store', [{ event_id := ev.id, type := ev.type, error := none,
                status := SubscriptionEventStatus.normal }])
  else
    (store', [])

/-- Result of one sweep of the reminder task: the ids of the records whose
notification (or status transition) was performed, and the exception that
aborted the loop, if any. -/
structure SweepOutcome where
  processed : List String
  failure : Option String
deriving DecidableEq, Repr

/-- SubscriptionReminderTask._process_grace_period_subscriptions: for each
candidate record, if `grace_expires_at > now` and the remaining grace days
are positive, send the grace-period notification.  The loop body has no
per-record exception handling: any exception (from the hybrid properties or
from sending the email, modelled by `notify`) propagates and aborts the loop,
leaving the remaining records unprocessed. -/
def process_grace_period_subscriptions
    (notify : OrganizationSubscription → Except String Unit) (now : Int) :
    List OrganizationSubscription → SweepOutcome
  | [] => { processed := [], failure := none }
  | s :: rest =>
    match grace_expires_at s with
    | Except.error msg => { processed := [], failure := some msg }
    | Except.ok none =>
        { processed := [],
          failure := some "TypeError: > not supported between instances of NoneType and datetime" }
    | Except.ok (some ge) =>
      if ge > now then
        match days_until_grace_period_ends s now with
        | Except.error msg => { processed := [], failure := some msg }
        | Except.ok days_remaining =>
          if days_remaining > 0 then
            match notify s with
            | Except.error msg => { processed := [], failure := some msg }
            | Except.ok _ =>
              let out := process_grace_period_subscriptions notify now rest
              { out with processed := s.id :: out.processed }
          else process_grace_period_subscriptions notify now rest
      else process_grace_period_subscriptions notify now rest

/-- Organization membership reduced to what the token route reads: the role
(for `is_owner_or_admin`) and the individually assigned permissions. -/
structure OrganizationMember where
  role : OrganizationRole
  permissions : List Permission
deriving DecidableEq, Repr

/-- OrganizationMember.is_owner_or_admin. -/
def is_owner_or_admin (m : OrganizationMember) : Bool :=
  decide (m.role = OrganizationRole.owner) || decide (m.role = OrganizationRole.admin)

/-- The permissions collected from all roles of the given subscriptions
(the nested loop of the token route building `subscription_permissions` and
`permission_ids`). -/
def subscription_role_permissions (subs : List OrganizationSubscription) :
    List Permission :=
  subs.flatMap (fun s => s.roles.flatMap (fun r => r.permissions))

/-- Organization-scoped permission projection of the token route
(routers/token.py): owners and admins get every codename of every role of
the active subscriptions; plain members get the codenames of their
individually assigned permissions whose ids occur among the subscription
role permissions. -/
def token_organization_permissions (m : OrganizationMember)
    (active_subscriptions : List OrganizationSubscription) : List String :=
  let perms := subscription_role_permissions active_subscriptions
  let subscription_permissions := perms.map Permission.codename
  let permission_ids := perms.map Permission.id
  if is_owner_or_admin m then subscription_permissions
  else
    (m.permissions.filter (fun p => decide (p.id ∈ permission_ids))).map
      Permission.codename

/-
Concrete rows and payloads used by the witnesses and counterexamples below.
-/

/-- A non-active record (status CANCELED) with NULL expiry. -/
def nullExpiryCanceled : OrganizationSubscription :=
  { id := "os_ne", organization_id := "org1", tier_id := "tier1", accounts := 1,
    stripe_subscription_id := "sub_ne", expires_at := none, grace_period := some 7,
    quantity := 1, interval := none, interval_count := none,
    status := SubscriptionStatus.canceled, roles := [] }

/-- A record whose expiry is 10 days in the past and whose grace_period is NULL. -/
def nullGraceExpired : OrganizationSubscription :=
  { id := "os_ng", organization_id := "org1", tier_id := "tier1", accounts := 1,
    stripe_subscription_id := "sub_ng", expires_at := some (-864000),
    grace_period := none, quantity := 1, interval := none, interval_count := none,
    status := SubscriptionStatus.canceled, roles := [] }

/-
Claim theorems.
-/

/-- C4: the provider-to-internal status mapping is exactly the fixed table
incomplete→PENDING, incomplete_expired→EXPIRED, trialing→TRIALING,
active→ACTIVE, past_due→PAST_DUE, canceled→CANCELED, unpaid→PAST_DUE, and
every other input string maps to PENDING. -/
theorem map_stripe_status_table :
    map_stripe_to_subscription_status "incomplete" = SubscriptionStatus.pending
    ∧ map_stripe_to_subscription_status "incomplete_expired" = SubscriptionStatus.expired
    ∧ map_stripe_to_subscription_status "trialing" = SubscriptionStatus.trialing
    ∧ map_stripe_to_subscription_status "active" = SubscriptionStatus.active
    ∧ map_stripe_to_subscription_status "past_due" = SubscriptionStatus.past_due
    ∧ map_stripe_to_subscription_status "canceled" = SubscriptionStatus.canceled
    ∧ map_stripe_to_subscription_status "unpaid" = SubscriptionStatus.past_due
    ∧ ∀ s : String, s ∉ knownStripeStatuses →
        map_stripe_to_subscription_status s = SubscriptionStatus.pending := by
  refine ⟨rfl, rfl, rfl, rfl, rfl, rfl, rfl, ?_⟩
  intro s hs
  simp only [knownStripeStatuses, List.mem_cons, List.not_mem_nil, or_false,
    not_or] at hs
  obtain ⟨h1, h2, h3, h4, h5, h6, h7⟩ := hs
  simp [map_stripe_to_subscription_status, h1, h2, h3, h4, h5, h6, h7]

/-- C4 witness: an unrecognized provider status maps to PENDING. -/
theorem map_stripe_status_table_witness :
    map_stripe_to_subscription_status "paused" = SubscriptionStatus.pending :=
  map_stripe_status_table.2.2.2.2.2.2.2 "paused" (by decide)

/-- C2: refuted on the code — `is_in_grace_period` evaluates
`self.expires_at < now` on a NULL expiry whenever the record is not active,
which raises TypeError instead of returning a sentinel, and `grace_expires_at`
(hence `days_until_grace_period_ends` and the in-grace branch of
`is_in_grace_period`) raises TypeError on a NULL grace_period with a non-NULL
expiry: `timedelta(days=None)` is not defined. -/
theorem entitlement_calculator_raises :
    is_in_grace_period nullExpiryCanceled 0 =
      Except.error "TypeError: < not supported between instances of NoneType and datetime"
    ∧ grace_expires_at nullGraceExpired =
      Except.error "TypeError: unsupported type for timedelta days component: NoneType"
    ∧ days_until_grace_period_ends nullGraceExpired 0 =
      Except.error "TypeError: unsupported type for timedelta days component: NoneType"
    ∧ is_in_grace_period nullGraceExpired 0 =
      Except.error "TypeError: unsupported type for timedelta days component: NoneType"
    ∧ is_active nullExpiryCanceled 0 = false ∧ is_active nullGraceExpired 0 = false
    ∧ days_until_expiry nullExpiryCanceled 0 = 0 :=
  ⟨rfl, rfl, rfl, rfl, rfl, rfl, rfl⟩

/-- C5: when the deleted event's record resolves, a truthy
cancel_at_period_end leaves status ACTIVE with the expiry untouched, and a
false or absent flag sets status CANCELED with expiry = now. -/
theorem subscription_deleted_transitions
    (sub : SubscriptionPayload) (now : Int) (store : Store) (sid : String)
    (os : OrganizationSubscription)
    (hid : truthyStr sub.id = some sid)
    (hres : get_by_stripe_subscription_id store sid = some os) :
    (sub.cancel_at_period_end = some true →
      handle_subscription_deleted_core sub now store =
        Except.ok (update_store store { os with status := SubscriptionStatus.active }))
    ∧ (sub.cancel_at_period_end = some false ∨ sub.cancel_at_period_end = none →
      handle_subscription_deleted_core sub now store =
        Except.ok (update_store store
          { os with status := SubscriptionStatus.canceled,
                    expires_at := some now })) := by
  constructor
  · intro hflag
    simp [handle_subscription_deleted_core, hid, hres, hflag]
  · intro hflag
    rcases hflag with h | h <;>
      simp [handle_subscription_deleted_core, hid, hres, h]

/-- Deleted-event payload with cancel_at_period_end true. -/
def delPayloadW5 : SubscriptionPayload :=
  { id := some "sub_w5", customer := none, status := none, items_data := [],
    current_period_end := none, quantity := none, cancel_at_period_end := some true }

/-- Record resolved by `delPayloadW5`. -/
def osW5 : OrganizationSubscription :=
  { id := "os_w5", organization_id := "org1", tier_id := "tier1", accounts := 1,
    stripe_subscription_id := "sub_w5", expires_at := some 1000,
    grace_period := some 7, quantity := 1, interval := none, interval_count := none,
    status := SubscriptionStatus.active, roles := [] }

/-- C5 witness: concrete cancel-at-period-end deletion leaves the record
ACTIVE with its expiry unchanged. -/
theorem subscription_deleted_transitions_witness :
    handle_subscription_deleted_core delPayloadW5 100 [osW5] =
      Except.ok (update_store [osW5] { osW5 with status := SubscriptionStatus.active }) :=
  (subscription_deleted_transitions delPayloadW5 100 [osW5] "sub_w5" osW5 rfl rfl).1 rfl

/-- C10: with cancel_at_period_end true, the handler assigns status ACTIVE
unconditionally — whatever the record's prior status s0 was — and the
record's expiry is unchanged by the update. -/
theorem subscription_deleted_cancel_at_period_end_forces_active
    (sub : SubscriptionPayload) (now : Int) (store : Store) (sid : String)
    (os : OrganizationSubscription) (s0 : SubscriptionStatus)
    (hprior : os.status = s0)
    (hid : truthyStr sub.id = some sid)
    (hres : get_by_stripe_subscription_id store sid = some os)
    (hflag : sub.cancel_at_period_end = some true) :
    handle_subscription_deleted_core sub now store =
      Except.ok (update_store store { os with status := SubscriptionStatus.active })
    ∧ ({ os with status := SubscriptionStatus.active} : OrganizationSubscription).expires_at
        = os.expires_at := by
  constructor
  · simp [handle_subscription_deleted_core, hid, hres, hflag]
  · rfl

/-- Deleted-event payload (cancel_at_period_end true) resolving a PAST_DUE record. -/
def delPayloadW10 : SubscriptionPayload :=
  { id := some "sub_w10", customer := none, status := none, items_data := [],
    current_period_end := none, quantity := none, cancel_at_period_end := some true }

/-- A PAST_DUE record resolved by `delPayloadW10`. -/
def osW10 : OrganizationSubscription :=
  { id := "os_w10", organization_id := "org1", tier_id := "tier1", accounts := 1,
    stripe_subscription_id := "sub_w10", expires_at := some 5000,
    grace_period := some 7, quantity := 1, interval := none, interval_count := none,
    status := SubscriptionStatus.past_due, roles := [] }

/-- C10 witness: a PAST_DUE record hit by cancel-at-period-end deletion comes
out ACTIVE with its expiry unchanged. -/
theorem subscription_deleted_cancel_at_period_end_forces_active_witness :
    handle_subscription_deleted_core delPayloadW10 42 [osW10] =
      Except.ok (update_store [osW10] { osW10 with status := SubscriptionStatus.active })
    ∧ ({ osW10 with status := SubscriptionStatus.active} : OrganizationSubscription).expires_at
        = osW10.expires_at :=
  subscription_deleted_cancel_at_period_end_forces_active delPayloadW10 42 [osW10]
    "sub_w10" osW10 SubscriptionStatus.past_due rfl rfl rfl rfl

/-- C9: the active-by-organization query's filter
`expires_at + grace_period days > now` is never satisfied by a NULL expiry
(SQL NULL semantics), so a null-expiry record is never returned — and hence
contributes no role permission to the token projection — even though
`is_active` holds for such a record with status ACTIVE. -/
theorem active_query_excludes_null_expiry
    (store : Store) (oid : String) (now : Int) (s : OrganizationSubscription) :
    (s ∈ get_active_by_organization store oid now → s.expires_at ≠ none)
    ∧ (s.expires_at = none → s.status = SubscriptionStatus.active →
        is_active s now = true ∧ s ∉ get_active_by_organization store oid now)
    ∧ (∀ p ∈ subscription_role_permissions (get_active_by_organization store oid now),
        ∃ t ∈ get_active_by_organization store oid now,
          t.expires_at ≠ none ∧ ∃ r ∈ t.roles, p ∈ r.permissions) := by
  have hmem : ∀ t : OrganizationSubscription,
      t ∈ get_active_by_organization store oid now → t.expires_at ≠ none := by
    intro t ht hnull
    rw [get_active_by_organization, List.mem_filter] at ht
    rw [hnull] at ht
    simp [sql_grace_window_gt] at ht
  refine ⟨hmem s, ?_, ?_⟩
  · intro hnull hactive
    constructor
    · simp [is_active, hnull, hactive]
    · intro hs
      exact hmem s hs hnull
  · intro p hp
    rw [subscription_role_permissions, List.mem_flatMap] at hp
    obtain ⟨t, ht, hpt⟩ := hp
    rw [List.mem_flatMap] at hpt
    obtain ⟨r, hr, hpr⟩ := hpt
    exact ⟨t, ht, hmem t ht, r, hr, hpr⟩

/-- ACTIVE record with NULL expiry (one-time purchase shape). -/
def osW9 : OrganizationSubscription :=
  { id := "os_w9", organization_id := "org9", tier_id := "tier9", accounts := 1,
    stripe_subscription_id := "one_time_cs_9", expires_at := none,
    grace_period := none, quantity := 1, interval := none, interval_count := none,
    status := SubscriptionStatus.active,
    roles := [{ id := "role9", permissions := [{ id := "p9", codename := "org.read" }] }] }

/-- C9 witness: the concrete null-expiry ACTIVE record is `is_active` yet
absent from the active-by-organization query over a store containing it. -/
theorem active_query_excludes_null_expiry_witness :
    is_active osW9 0 = true ∧ osW9 ∉ get_active_by_organization [osW9] "org9" 0 :=
  (active_query_excludes_null_expiry [osW9] "org9" 0 osW9).2.1 rfl rfl

/-- C7: for the organization-scoped projection, an OWNER or ADMIN member
receives exactly the union of permission codenames across all roles of the
active subscriptions; a plain MEMBER receives exactly their individually
assigned permissions whose ids occur in the subscription-role-derived id set,
and (given that permission ids determine codenames, as they do for rows of
one permission table) never a codename outside the subscription-derived
union. -/
theorem token_permission_projection
    (m : OrganizationMember) (subs : List OrganizationSubscription)
    (hcoh : ∀ p ∈ m.permissions, ∀ q ∈ subscription_role_permissions subs,
      p.id = q.id → p.codename = q.codename) :
    (is_owner_or_admin m = true →
      token_organization_permissions m subs =
        (subscription_role_permissions subs).map Permission.codename)
    ∧ (is_owner_or_admin m = false →
      ∀ c, c ∈ token_organization_permissions m subs ↔
        ∃ p ∈ m.permissions, p.codename = c ∧
          p.id ∈ (subscription_role_permissions subs).map Permission.id)
    ∧ (is_owner_or_admin m = false →
      ∀ c ∈ token_organization_permissions m subs,
        c ∈ (subscription_role_permissions subs).map Permission.codename) := by
  have hmemb : is_owner_or_admin m = false →
      ∀ c, c ∈ token_organization_permissions m subs ↔
        ∃ p ∈ m.permissions, p.codename = c ∧
          p.id ∈ (subscription_role_permissions subs).map Permission.id := by
    intro hrole c
    rw [token_organization_permissions]
    simp only [hrole, Bool.false_eq_true, if_false, List.mem_map, List.mem_filter,
      decide_eq_true_eq]
    constructor
    · rintro ⟨p, ⟨hp, hid⟩, hc⟩
      exact ⟨p, hp, hc, hid⟩
    · rintro ⟨p, hp, hc, hid⟩
      exact ⟨p, ⟨hp, hid⟩, hc⟩
  refine ⟨?_, hmemb, ?_⟩
  · intro hrole
    rw [token_organization_permissions]
    simp [hrole]
  · intro hrole c hc
    obtain ⟨p, hp, hcode, hid⟩ := (hmemb hrole c).mp hc
    rw [List.mem_map] at hid
    obtain ⟨q, hq, hqid⟩ := hid
    have : p.codename = q.codename := hcoh p hp q hq hqid.symm
    rw [List.mem_map]
    exact ⟨q, hq, by rw [← this, hcode]⟩

/-- A plain MEMBER with one in-subscription permission and one permission
outside every active subscription's role set. -/
def memberW7 : OrganizationMember :=
  { role := OrganizationRole.member,
    permissions := [{ id := "p_doc", codename := "doc.read" },
                    { id := "p_adm", codename := "admin.panel" }] }

/-- Active subscriptions whose single role grants only `doc.read`. -/
def subsW7 : List OrganizationSubscription :=
  [{ id := "os_w7", organization_id := "org7", tier_id := "tier7", accounts := 1,
     stripe_subscription_id := "sub_w7", expires_at := some 1000,
     grace_period := some 7, quantity := 1, interval := none, interval_count := none,
     status := SubscriptionStatus.active,
     roles := [{ id := "role7",
                 permissions := [{ id := "p_doc", codename := "doc.read" }] }] }]

/-- C7 witness: the concrete MEMBER's projected codename `doc.read` lies in
the subscription-derived union. -/
theorem token_permission_projection_witness :
    "doc.read" ∈ (subscription_role_permissions subsW7).map Permission.codename :=
  (token_permission_projection memberW7 subsW7 (by decide)).2.2 (by decide)
    "doc.read" (by decide)

/-- The handlers copy a parent subscription's roles only when they are
non-empty, leaving the fresh record's default empty list otherwise; both
branches yield the parent's role list. -/
theorem copy_roles_eq (o : Option CatalogSubscription) :
    (match o with
      | some parent => if parent.roles ≠ [] then parent.roles else []
      | none => ([] : List Role)) =
    (match o with
      | some parent => parent.roles
      | none => ([] : List Role)) := by
  rcases o with _ | parent
  · rfl
  · by_cases h : parent.roles = [] <;> simp [h]

/-- A non-empty string is truthy. -/
theorem truthyStr_some_of_ne (s : String) (h : s ≠ "") :
    truthyStr (some s) = some s := by
  simp [truthyStr, h]

/-- C6: a paid checkout-completed event without a subscription reference,
whose first line item resolves to a ONE_TIME tier and whose client reference
resolves to an organization, creates exactly one record with status ACTIVE,
NULL expiry, NULL grace_period, the synthetic reference derived from the
session id, and roles copied from the tier's parent subscription. -/
theorem checkout_one_time_record_fields
    (env : Env) (session : CheckoutSession) (store : Store)
    (price_id oid : String) (rest : List (Option String))
    (tier : SubscriptionTier) (org : Organization)
    (hpaid : session.payment_status = some "paid")
    (hnosub : truthyStr session.subscription = none)
    (hitems : env.line_items session.id = some price_id :: rest)
    (hpid : price_id ≠ "")
    (htier : get_by_stripe_price_id env price_id = some tier)
    (hmode : tier.mode = SubscriptionTierMode.one_time)
    (hcrid : truthyStr session.client_reference_id = some oid)
    (horg : get_org_by_id env oid = some org) :
    handle_checkout_session_completed_core env session store =
      Except.ok (create_store store
        { id := "one_time_" ++ pyStr session.id
          organization_id := org.id
          tier_id := tier.id
          accounts :=
            match tier.subscription with
            | some parent => parent.accounts
            | none => 1
          status := SubscriptionStatus.active
          quantity := tier.quantity
          interval := none
          interval_count := none
          stripe_subscription_id := "one_time_" ++ pyStr session.id
          expires_at := none
          grace_period := none
          roles :=
            match tier.subscription with
            | some parent => parent.roles
            | none => [] }) := by
  rw [handle_checkout_session_completed_core]
  simp only [hpaid, hnosub, hitems, truthyStr_some_of_ne price_id hpid, htier,
    hcrid, horg, hmode, ne_eq, not_true_eq_false, if_false]
  rcases htsub : tier.subscription with _ | parent
  · simp [htsub]
  · by_cases hr : parent.roles = [] <;> simp [htsub, hr]

/-- Role granted by the C6 witness tier's parent subscription. -/
def roleW6 : Role :=
  { id := "role6", permissions := [{ id := "p6", codename := "feature.use" }] }

/-- Concrete catalog: ONE_TIME tier with a parent subscription granting one role. -/
def tierW6 : SubscriptionTier :=
  { id := "tier6", stripe_price_id := "price6",
    mode := SubscriptionTierMode.one_time, quantity := 1,
    interval := none, interval_count := none,
    subscription := some { accounts := 3, roles := [roleW6] } }

/-- Concrete environment resolving `price6` and organization `org6`. -/
def envW6 : Env :=
  { tiers := [tierW6],
    organizations := [{ id := "org6", customer_id := some "cus6" }],
    line_items := fun sid => if sid = some "cs_6" then [some "price6"] else [] }

/-- Concrete paid one-time checkout session. -/
def sessionW6 : CheckoutSession :=
  { id := some "cs_6", subscription := none, payment_status := some "paid",
    client_reference_id := some "org6" }

/-- C6 witness: evaluating the handler on the concrete session creates the
one-time record with the stated fields. -/
theorem checkout_one_time_record_fields_witness :
    handle_checkout_session_completed_core envW6 sessionW6 [] =
      Except.ok (create_store []
        { id := "one_time_" ++ pyStr sessionW6.id
          organization_id := "org6"
          tier_id := tierW6.id
          accounts :=
            match tierW6.subscription with
            | some parent => parent.accounts
            | none => 1
          status := SubscriptionStatus.active
          quantity := tierW6.quantity
          interval := none
          interval_count := none
          stripe_subscription_id := "one_time_" ++ pyStr sessionW6.id
          expires_at := none
          grace_period := none
          roles :=
            match tierW6.subscription with
            | some parent => parent.roles
            | none => [] }) :=
  checkout_one_time_record_fields envW6 sessionW6 [] "price6" "org6" []
    tierW6 { id := "org6", customer_id := some "cus6" }
    rfl rfl rfl (by decide) rfl rfl rfl rfl

/-- C3 (amended): when a subscription-created event resolves its tier,
organization, and no record exists yet for the (organization, tier) pair, the
new record has the mapped provider status, expiry from the (truthy) current
period end, grace_period 7, roles copied from the tier's parent subscription,
and quantity equal to the tier's quantity when that exceeds 1, else to the
provider-reported quantity (default 1) — not max(tier, provider). -/
theorem subscription_created_new_record_fields
    (env : Env) (sub : SubscriptionPayload) (store : Store)
    (customer_id subscription_id price_id : String)
    (item : SubItem) (rest : List SubItem)
    (tier : SubscriptionTier) (org : Organization)
    (hcust : truthyStr sub.customer = some customer_id)
    (hid : truthyStr sub.id = some subscription_id)
    (hitems : sub.items_data = item :: rest)
    (hpid : truthyStr item.price_id = some price_id)
    (htier : get_by_stripe_price_id env price_id = some tier)
    (hmode : tier.mode = SubscriptionTierMode.recurring)
    (horg : get_by_user_customer_id env customer_id = some org)
    (hnone : get_by_organization_and_tier store org.id tier.id = []) :
    handle_subscription_created_core env sub store =
      Except.ok (create_store store
        { id := subscription_id
          organization_id := org.id
          tier_id := tier.id
          stripe_subscription_id := subscription_id
          accounts :=
            match tier.subscription with
            | some parent => parent.accounts
            | none => 1
          status := map_stripe_status_opt sub.status
          quantity :=
            if tier.quantity > 1 then tier.quantity else sub.quantity.getD 1
          interval := tier.interval
          interval_count := tier.interval_count
          expires_at := truthyInt sub.current_period_end
          grace_period := some 7
          roles :=
            match tier.subscription with
            | some parent => parent.roles
            | none => [] }) := by
  rw [handle_subscription_created_core]
  simp only [hcust, hid, hitems, hpid, htier, horg, hnone, ne_eq,
    not_true_eq_false, false_and, if_false]
  rcases htsub : tier.subscription with _ | parent
  · simp [htsub]
  · by_cases hr : parent.roles = [] <;> simp [htsub, hr]

/-- Concrete catalog for the C3 counterexample: RECURRING tier whose own
quantity is 2. -/
def tierX3 : SubscriptionTier :=
  { id := "tier3", stripe_price_id := "price3",
    mode := SubscriptionTierMode.recurring, quantity := 2,
    interval := some SubscriptionInterval.month, interval_count := some 1,
    subscription := some { accounts := 3, roles := [] } }

/-- Concrete environment resolving `price3` and customer `cus3`. -/
def envX3 : Env :=
  { tiers := [tierX3],
    organizations := [{ id := "org3", customer_id := some "cus3" }],
    line_items := fun _ => [] }

/-- Concrete created-event payload reporting quantity 5. -/
def subPayloadX3 : SubscriptionPayload :=
  { id := some "sub3", customer := some "cus3", status := some "active",
    items_data := [{ price_id := some "price3" }],
    current_period_end := some 1700000000, quantity := some 5,
    cancel_at_period_end := none }

/-- C3 counterexample: with tier quantity 2 and provider-reported quantity 5,
the created record's quantity is 2, not max(2, 5) = 5 — the code takes the
tier quantity whenever it exceeds 1, ignoring the provider's value. -/
theorem subscription_created_quantity_not_max_cex :
    subPayloadX3.quantity = some 5
    ∧ tierX3.quantity = 2
    ∧ (handle_subscription_created_core envX3 subPayloadX3 []).map
        (fun st => st.map (fun r => r.quantity)) = Except.ok [2]
    ∧ max tierX3.quantity 5 = 5
    ∧ (2 : Int) ≠ max tierX3.quantity 5 :=
  ⟨rfl, rfl, rfl, by decide, by decide⟩

/-- C3 witness for the amended claim: evaluating the handler on the concrete
payload (tier quantity 2, provider quantity 5, empty store) yields the record
with quantity 2, grace_period 7, mapped ACTIVE status and period-end expiry. -/
theorem subscription_created_new_record_fields_witness :
    handle_subscription_created_core envX3 subPayloadX3 [] =
      Except.ok (create_store []
        { id := "sub3"
          organization_id := "org3"
          tier_id := tierX3.id
          stripe_subscription_id := "sub3"
          accounts :=
            match tierX3.subscription with
            | some parent => parent.accounts
            | none => 1
          status := map_stripe_status_opt subPayloadX3.status
          quantity :=
            if tierX3.quantity > 1 then tierX3.quantity
            else subPayloadX3.quantity.getD 1
          interval := tierX3.interval
          interval_count := tierX3.interval_count
          expires_at := truthyInt subPayloadX3.current_period_end
          grace_period := some 7
          roles :=
            match tierX3.subscription with
            | some parent => parent.roles
            | none => [] }) :=
  subscription_created_new_record_fields envX3 subPayloadX3 []
    "cus3" "sub3" "price3" { price_id := some "price3" } [] tierX3
    { id := "org3", customer_id := some "cus3" }
    rfl rfl rfl rfl rfl rfl rfl rfl

/-- Invoice payload with no subscription reference: its handler's processing
raises ValueError internally. -/
def invX1 : InvoicePayload := { subscription := none, lines_data := none }

/-- Webhook event wrapping `invX1`. -/
def evX1 : StripeEvent :=
  { id := "evt_x1", type := "invoice.paid", data := EventData.invoice invX1 }

/-- Empty read-side environment. -/
def envX1 : Env := { tiers := [], organizations := [], line_items := fun _ => [] }

/-- C1 counterexample: the invoice.paid handler's processing raises (no
subscription id in the payload), yet the webhook writes the event's single
audit row with status NORMAL and no error text — the handler's own catch-all
swallows the exception before the webhook's CRITICAL audit branch can see
it — refuting the claim that a handler exception yields a CRITICAL row. -/
theorem webhook_failed_handler_writes_normal_row_cex :
    handle_invoice_paid_core invX1 [] =
      Except.error "No subscription ID in invoice paid event"
    ∧ payment_webhook envX1 0 evX1 [] =
      ([], [{ event_id := "evt_x1", type := "invoice.paid", error := none,
              status := SubscriptionEventStatus.normal }])
    ∧ SubscriptionEventStatus.normal ≠ SubscriptionEventStatus.critical :=
  ⟨rfl, rfl, by decide⟩

/-- C1 (amended): for every recognized event type, processing the webhook
writes exactly one SubscriptionEvent row keyed by the external event id, and
that row always has status NORMAL with no error text, whether or not the
handler's internal processing succeeded — each handler catches its own
exceptions, so the webhook's CRITICAL branch is unreachable for these six
types. -/
theorem webhook_recognized_event_single_normal_row
    (env : Env) (now : Int) (ev : StripeEvent) (store : Store)
    (hrec : ev.type ∈ recognized_event_types) :
    payment_webhook env now ev store =
      (dispatch_event env now ev store,
       [{ event_id := ev.id, type := ev.type, error := none,
          status := SubscriptionEventStatus.normal }]) := by
  simp [payment_webhook, hrec]

/-- C1 witness: the amended statement at the concrete invoice.paid event. -/
theorem webhook_recognized_event_single_normal_row_witness :
    payment_webhook envX1 0 evX1 [] =
      (dispatch_event envX1 0 evX1 [],
       [{ event_id := "evt_x1", type := "invoice.paid", error := none,
          status := SubscriptionEventStatus.normal }]) :=
  webhook_recognized_event_single_normal_row envX1 0 evX1 [] (by decide)

/-- First grace-period candidate: expired 2 days ago, 7-day grace window. -/
def graceSubA : OrganizationSubscription :=
  { id := "os_ga", organization_id := "orgA", tier_id := "tierA", accounts := 1,
    stripe_subscription_id := "sub_ga", expires_at := some (-172800),
    grace_period := some 7, quantity := 1, interval := none, interval_count := none,
    status := SubscriptionStatus.active, roles := [] }

/-- Second grace-period candidate, identical shape. -/
def graceSubB : OrganizationSubscription :=
  { id := "os_gb", organization_id := "orgB", tier_id := "tierB", accounts := 1,
    stripe_subscription_id := "sub_gb", expires_at := some (-172800),
    grace_period := some 7, quantity := 1, interval := none, interval_count := none,
    status := SubscriptionStatus.active, roles := [] }

/-- Notification delivery that fails for the first organization only. -/
def notifyX8 : OrganizationSubscription → Except String Unit :=
  fun s => if s.id = "os_ga" then Except.error "SMTPConnectError: connection refused"
           else Except.ok ()

/-- C8: the grace-period sweep has no per-record exception handling, so a
notification failure on the first record aborts the loop and the second
record — which on its own would be notified — is left unprocessed in the
same invocation. -/
theorem grace_sweep_aborts_on_single_failure :
    process_grace_period_subscriptions notifyX8 0 [graceSubA, graceSubB] =
      { processed := [], failure := some "SMTPConnectError: connection refused" }
    ∧ process_grace_period_subscriptions notifyX8 0 [graceSubB] =
      { processed := ["os_gb"], failure := none } :=
  ⟨rfl, rfl⟩

end ARAuth
